import Mathlib

/-!
Formal model of the MakeMp3s.github.io Lemon Squeezy webhook handlers.

The repository ships three iterations of the same Vercel serverless
function:

* `WebhookA` — src/api/webhook.js, first document (lines 1-104): disables
  the body parser, captures the raw request bytes with `getRawBody`, and
  verifies the signature only when both the secret and the signature are
  truthy; only the `order_created` event is handled.
* `WebhookB` — src/api/webhook.js, second document (lines 105-267):
  recomputes a "raw body" with `JSON.stringify(req.body)`, rejects a
  missing secret with 500, allows a missing signature through, and handles
  `order_created`, `subscription_created` and `subscription_updated`.
* `PartZero` — src/unnamed/part_000: like `WebhookB` but rejects a missing
  signature or secret with 401 and has no try/catch inside
  `verifySignature` (a length mismatch in `crypto.timingSafeEqual`
  therefore escapes to the top-level catch).

JavaScript dynamic values are modelled by the inductive `JVal`; property
access, optional chaining, truthiness, `||`, `toLowerCase`, and
`String.prototype.includes` follow the ECMAScript semantics the handlers
rely on.  Thrown exceptions are the `Except Unit` monad; the top-level try/catch of each handler converts any error into a 500 response.
-/

set_option maxRecDepth 8000

/-- A JavaScript value as the webhook handlers see it: the JSON data model
plus `undefined` and the resolved server timestamp that Firestore stores in
place of the `FieldValue.serverTimestamp()` sentinel. -/
inductive JVal where
  | jundefined : JVal
  | jnull : JVal
  | jbool : Bool → JVal
  | jnum : Int → JVal
  | jstr : String → JVal
  | jarr : List JVal → JVal
  | jobj : List (String × JVal) → JVal
  | jtime : Nat → JVal

/-- True exactly for the two JavaScript values on which property access
throws a TypeError (`undefined` and `null`). -/
def isNullish : JVal → Bool
  | .jundefined => true
  | .jnull => true
  | _ => false

/-- True exactly for `undefined`. -/
def isUndefined : JVal → Bool
  | .jundefined => true
  | _ => false

/-- ECMAScript ToBoolean on the modelled values (NaN is not modelled; the
handlers only test strings and absent values). -/
def truthy : JVal → Bool
  | .jundefined => false
  | .jnull => false
  | .jbool b => b
  | .jnum n => decide (n ≠ 0)
  | .jstr s => decide (s ≠ "")
  | .jarr _ => true
  | .jobj _ => true
  | .jtime _ => true

/-- JavaScript `a || b`. -/
def jsOr (a b : JVal) : JVal :=
  if truthy a then a else b

/-- Own-property lookup on the member list of an object; an absent key reads as
`undefined`.  (Parsed webhook bodies have unique keys, so first-match
lookup agrees with the JavaScript object.) -/
def propLookup (k : String) : List (String × JVal) → JVal
  | [] => .jundefined
  | (k2, v) :: rest => if k = k2 then v else propLookup k rest

/-- JavaScript property access `v[k]`: throws on `undefined`/`null`,
reads from objects, and yields `undefined` on every other primitive
(array index properties are never read by the handlers). -/
def getProp (v : JVal) (k : String) : Except Unit JVal :=
  match v with
  | .jundefined => .error ()
  | .jnull => .error ()
  | .jobj fs => .ok (propLookup k fs)
  | _ => .ok .jundefined

/-- Optional chaining `v?.k`: `undefined` on a nullish base, otherwise a
plain property access (which can no longer throw). -/
def getChain (v : JVal) (k : String) : Except Unit JVal :=
  if isNullish v then .ok .jundefined else getProp v k

/-- JavaScript strict equality against a string literal, the only form of
`===` the handlers use. -/
def strictEqStr (v : JVal) (s : String) : Bool :=
  match v with
  | .jstr t => decide (t = s)
  | _ => false

/-- ASCII lowering, the fragment of `String.prototype.toLowerCase` the
product-name test relies on. -/
def strLower (s : String) : String :=
  String.mk (s.data.map Char.toLower)

/-- Substring test on character lists: does `needle` occur inside the
second argument? -/
def containsSub (needle : List Char) : List Char → Bool
  | [] => needle.isEmpty
  | c :: rest => needle.isPrefixOf (c :: rest) || containsSub needle rest

/-- JavaScript `s.includes(sub)`. -/
def strIncludes (s sub : String) : Bool :=
  containsSub sub.data s.data

/-- `v.toLowerCase()`: defined on strings, a TypeError on anything else. -/
def jsToLowerCase (v : JVal) : Except Unit String :=
  match v with
  | .jstr s => .ok (strLower s)
  | _ => .error ()

/-- UTF-8 bytes of a string (the strings of the handlers are ASCII, where UTF-8
is the identity on code points). -/
def strBytes (s : String) : List Nat :=
  s.data.map Char.toNat

/-- Decode transport bytes back into a string (ASCII bodies). -/
def bytesToStr (bs : List Nat) : String :=
  String.mk (bs.map Char.ofNat)

/-- JavaScript falsiness of a possibly-absent string (an env variable or a
header): absent or empty is falsy. -/
def falsyOpt : Option String → Bool
  | none => true
  | some s => decide (s = "")

/-- Whitespace accepted between JSON tokens. -/
def isJsonWs (c : Char) : Bool :=
  decide (c = ' ' ∨ c = '\n' ∨ c = '\t' ∨ c = '\r')

/-- Drop leading JSON whitespace. -/
def skipWs : List Char → List Char
  | [] => []
  | c :: rest => if isJsonWs c then skipWs rest else c :: rest

/-- Decimal digit test. -/
def isDigitCh (c : Char) : Bool :=
  decide ('0' ≤ c ∧ c ≤ '9')

/-- Split off a maximal run of leading digits. -/
def takeDigits : List Char → List Char × List Char
  | [] => ([], [])
  | c :: rest =>
    if isDigitCh c then
      let (ds, r) := takeDigits rest
      (c :: ds, r)
    else ([], c :: rest)

/-- Value of a digit run. -/
def digitsToNat : List Char → Nat
  | [] => 0
  | ds => ds.foldl (fun acc c => 10 * acc + (c.toNat - 48)) 0

/-- JSON string-escape decoding for the escapes the bodies use. -/
def escChar (e : Char) : Option Char :=
  if e = '"' then some '"'
  else if e = '\\' then some '\\'
  else if e = '/' then some '/'
  else if e = 'n' then some '\n'
  else if e = 't' then some '\t'
  else if e = 'r' then some '\r'
  else if e = 'b' then some (Char.ofNat 8)
  else if e = 'f' then some (Char.ofNat 12)
  else none

/-- Parse the characters of a JSON string after its opening quote,
returning the decoded characters and the rest of the input. -/
def parseStrChars : List Char → Option (List Char × List Char)
  | [] => none
  | '"' :: rest => some ([], rest)
  | '\\' :: e :: rest =>
    match escChar e, parseStrChars rest with
    | some c, some (s, r) => some (c :: s, r)
    | _, _ => none
  | c :: rest =>
    match parseStrChars rest with
    | some (s, r) => some (c :: s, r)
    | none => none

mutual

/-- Modelled from the spec: the `JSON.parse` of the host runtime ("Body: JSON
object matching the Inbound Event shape"), on the JSON fragment the
webhook bodies use — objects, arrays, strings with basic escapes, integer
numerals, and the three literals.  Fuel bounds the nesting depth. -/
def parseVal (fuel : Nat) (cs : List Char) : Option (JVal × List Char) :=
  match fuel with
  | 0 => none
  | fuel + 1 =>
    match skipWs cs with
    | 'n' :: 'u' :: 'l' :: 'l' :: rest => some (.jnull, rest)
    | 't' :: 'r' :: 'u' :: 'e' :: rest => some (.jbool true, rest)
    | 'f' :: 'a' :: 'l' :: 's' :: 'e' :: rest => some (.jbool false, rest)
    | '"' :: rest =>
      match parseStrChars rest with
      | some (s, r) => some (.jstr (String.mk s), r)
      | none => none
    | '\x7b' :: rest =>
      match skipWs rest with
      | '\x7d' :: r2 => some (.jobj [], r2)
      | r1 =>
        match parseMembers fuel r1 with
        | some (ms, r2) => some (.jobj ms, r2)
        | none => none
    | '[' :: rest =>
      match skipWs rest with
      | ']' :: r2 => some (.jarr [], r2)
      | r1 =>
        match parseElems fuel r1 with
        | some (vs, r2) => some (.jarr vs, r2)
        | none => none
    | '-' :: rest =>
      match takeDigits rest with
      | ([], _) => none
      | (ds, r) => some (.jnum (-(Int.ofNat (digitsToNat ds))), r)
    | c :: rest =>
      if isDigitCh c then
        match takeDigits (c :: rest) with
        | (ds, r) => some (.jnum (Int.ofNat (digitsToNat ds)), r)
      else none
    | [] => none

/-- Members of a JSON object after its opening brace (nonempty case). -/
def parseMembers (fuel : Nat) (cs : List Char) :
    Option (List (String × JVal) × List Char) :=
  match fuel with
  | 0 => none
  | fuel + 1 =>
    match skipWs cs with
    | '"' :: rest =>
      match parseStrChars rest with
      | some (key, r1) =>
        match skipWs r1 with
        | ':' :: r2 =>
          match parseVal fuel r2 with
          | some (v, r3) =>
            match skipWs r3 with
            | ',' :: r4 =>
              match parseMembers fuel r4 with
              | some (ms, r5) => some ((String.mk key, v) :: ms, r5)
              | none => none
            | '\x7d' :: r4 => some ([(String.mk key, v)], r4)
            | _ => none
          | none => none
        | _ => none
      | none => none
    | _ => none

/-- Elements of a JSON array after its opening bracket (nonempty case). -/
def parseElems (fuel : Nat) (cs : List Char) :
    Option (List JVal × List Char) :=
  match fuel with
  | 0 => none
  | fuel + 1 =>
    match parseVal fuel cs with
    | some (v, r1) =>
      match skipWs r1 with
      | ',' :: r2 =>
        match parseElems fuel r2 with
        | some (vs, r3) => some (v :: vs, r3)
        | none => none
      | ']' :: r2 => some ([v], r2)
      | _ => none
    | none => none

end

/-- `JSON.parse` on a whole document: one value and nothing but trailing
whitespace.  A parse failure is the SyntaxError the handlers catch. -/
def jsonParse (s : String) : Except Unit JVal :=
  match parseVal (s.data.length + 1) s.data with
  | some (v, rest) => if (skipWs rest).isEmpty then .ok v else .error ()
  | none => .error ()

/-- JSON string-escape encoding used by `JSON.stringify`. -/
def escCharsOut : List Char → List Char
  | [] => []
  | c :: rest =>
    (if c = '"' then ['\\', '"']
     else if c = '\\' then ['\\', '\\']
     else if c = '\n' then ['\\', 'n']
     else if c = '\t' then ['\\', 't']
     else if c = '\r' then ['\\', 'r']
     else [c]) ++ escCharsOut rest

/-- Quote a string as a JSON string literal. -/
def quoteStr (s : String) : String :=
  "\"" ++ String.mk (escCharsOut s.data) ++ "\""

mutual

/-- Modelled from the spec: `JSON.stringify` as the handlers invoke it on a
host-parsed body ("sign/verify a re-serialized copy of the parsed body"):
no inserted whitespace, members in insertion order.  Parsed bodies contain
no `undefined`, so member dropping never fires and is not modelled. -/
def stringifyVal : JVal → String
  | .jundefined => "null"
  | .jnull => "null"
  | .jbool b => if b then "true" else "false"
  | .jnum i => toString i
  | .jstr s => quoteStr s
  | .jtime n => toString n
  | .jarr vs => "[" ++ stringifyElems vs ++ "]"
  | .jobj ms => "\x7b" ++ stringifyMembers ms ++ "\x7d"

/-- Comma-joined stringified array elements. -/
def stringifyElems : List JVal → String
  | [] => ""
  | [v] => stringifyVal v
  | v :: rest => stringifyVal v ++ "," ++ stringifyElems rest

/-- Comma-joined stringified object members. -/
def stringifyMembers : List (String × JVal) → String
  | [] => ""
  | [(k, v)] => quoteStr k ++ ":" ++ stringifyVal v
  | (k, v) :: rest => quoteStr k ++ ":" ++ stringifyVal v ++ "," ++ stringifyMembers rest

end

/-- `JSON.stringify(req.body)` as called on lines 49 of part_000 and 165 of
webhook.js. -/
def jsonStringify (v : JVal) : String :=
  stringifyVal v

/-- Truncate to a 32-bit word. -/
def w32 (n : Nat) : Nat := n % 4294967296

/-- 32-bit modular addition. -/
def addw (a b : Nat) : Nat := w32 (a + b)

/-- 32-bit right rotation. -/
def rotr (n x : Nat) : Nat :=
  w32 (Nat.lor (Nat.shiftRight x n) (Nat.shiftLeft x (32 - n)))

/-- Logical right shift. -/
def shr (n x : Nat) : Nat := Nat.shiftRight x n

/-- 32-bit complement. -/
def notw (x : Nat) : Nat := Nat.xor x 4294967295

/-- SHA-256 choose function. -/
def shaCh (x y z : Nat) : Nat := Nat.xor (Nat.land x y) (Nat.land (notw x) z)

/-- SHA-256 majority function. -/
def shaMaj (x y z : Nat) : Nat :=
  Nat.xor (Nat.xor (Nat.land x y) (Nat.land x z)) (Nat.land y z)

/-- SHA-256 big sigma 0. -/
def bsig0 (x : Nat) : Nat := Nat.xor (Nat.xor (rotr 2 x) (rotr 13 x)) (rotr 22 x)

/-- SHA-256 big sigma 1. -/
def bsig1 (x : Nat) : Nat := Nat.xor (Nat.xor (rotr 6 x) (rotr 11 x)) (rotr 25 x)

/-- SHA-256 small sigma 0. -/
def ssig0 (x : Nat) : Nat := Nat.xor (Nat.xor (rotr 7 x) (rotr 18 x)) (shr 3 x)

/-- SHA-256 small sigma 1. -/
def ssig1 (x : Nat) : Nat := Nat.xor (Nat.xor (rotr 17 x) (rotr 19 x)) (shr 10 x)

/-- The 64 SHA-256 round constants. -/
def shaK : List Nat :=
  [1116352408, 1899447441, 3049323471, 3921009573,
   961987163, 1508970993, 2453635748, 2870763221,
   3624381080, 310598401, 607225278, 1426881987,
   1925078388, 2162078206, 2614888103, 3248222580,
   3835390401, 4022224774, 264347078, 604807628,
   770255983, 1249150122, 1555081692, 1996064986,
   2554220882, 2821834349, 2952996808, 3210313671,
   3336571891, 3584528711, 113926993, 338241895,
   666307205, 773529912, 1294757372, 1396182291,
   1695183700, 1986661051, 2177026350, 2456956037,
   2730485921, 2820302411, 3259730800, 3345764771,
   3516065817, 3600352804, 4094571909, 275423344,
   430227734, 506948616, 659060556, 883997877,
   958139571, 1322822218, 1537002063, 1747873779,
   1955562222, 2024104815, 2227730452, 2361852424,
   2428436474, 2756734187, 3204031479, 3329325298]

/-- SHA-256 hash state (eight chaining words). -/
structure Hash8 where
  h0 : Nat
  h1 : Nat
  h2 : Nat
  h3 : Nat
  h4 : Nat
  h5 : Nat
  h6 : Nat
  h7 : Nat

/-- SHA-256 initial hash value. -/
def shaInit : Hash8 :=
  ⟨1779033703, 3144134277, 1013904242, 2773480762,
   1359893119, 2600822924, 528734635, 1541459225⟩

/-- Message padding: 0x80, zeros to 56 mod 64, then the bit length as
eight big-endian bytes. -/
def shaPad (msg : List Nat) : List Nat :=
  let bitLen := 8 * msg.length
  let r := (msg.length + 1) % 64
  let zeros := (120 - r) % 64
  msg ++ [0x80] ++ List.replicate zeros 0 ++
    [bitLen / 72057594037927936 % 256,
     bitLen / 281474976710656 % 256,
     bitLen / 1099511627776 % 256,
     bitLen / 4294967296 % 256,
     bitLen / 16777216 % 256,
     bitLen / 65536 % 256,
     bitLen / 256 % 256,
     bitLen % 256]

/-- Big-endian 32-bit words of one 64-byte block. -/
def blockWords (b : List Nat) : List Nat :=
  (List.range 16).map fun i =>
    16777216 * b.getD (4 * i) 0 + 65536 * b.getD (4 * i + 1) 0 +
      256 * b.getD (4 * i + 2) 0 + b.getD (4 * i + 3) 0

/-- Extend 16 message words to the 64-entry schedule. -/
def shaSchedule (w16 : List Nat) : List Nat :=
  (List.range 48).foldl
    (fun ws _ =>
      ws ++ [addw (addw (ssig1 (ws.getD (ws.length - 2) 0)) (ws.getD (ws.length - 7) 0))
               (addw (ssig0 (ws.getD (ws.length - 15) 0)) (ws.getD (ws.length - 16) 0))])
    w16

/-- One SHA-256 compression step over a 64-byte block. -/
def shaCompress (h : Hash8) (block : List Nat) : Hash8 :=
  let w := shaSchedule (blockWords block)
  let st :=
    (List.range 64).foldl
      (fun (s : Nat × Nat × Nat × Nat × Nat × Nat × Nat × Nat) t =>
        let (a, b, c, d, e, f, g, hh) := s
        let t1 := addw hh (addw (bsig1 e) (addw (shaCh e f g) (addw (shaK.getD t 0) (w.getD t 0))))
        let t2 := addw (bsig0 a) (shaMaj a b c)
        (addw t1 t2, a, b, c, addw d t1, e, f, g))
      (h.h0, h.h1, h.h2, h.h3, h.h4, h.h5, h.h6, h.h7)
  match st with
  | (a, b, c, d, e, f, g, hh) =>
    ⟨addw h.h0 a, addw h.h1 b, addw h.h2 c, addw h.h3 d,
     addw h.h4 e, addw h.h5 f, addw h.h6 g, addw h.h7 hh⟩

/-- Big-endian bytes of one 32-bit word. -/
def bytes4 (x : Nat) : List Nat :=
  [x / 16777216 % 256, x / 65536 % 256, x / 256 % 256, x % 256]

/-- Modelled from the spec: SHA-256 over a byte list, the hash inside
"compute HMAC-SHA256(secret, raw_body)" (the handlers call the Node crypto module, which is outside the repository). -/
def sha256 (msg : List Nat) : List Nat :=
  let p := shaPad msg
  let n := p.length / 64
  let fin := (List.range n).foldl (fun st i => shaCompress st ((p.drop (64 * i)).take 64)) shaInit
  bytes4 fin.h0 ++ bytes4 fin.h1 ++ bytes4 fin.h2 ++ bytes4 fin.h3 ++
    bytes4 fin.h4 ++ bytes4 fin.h5 ++ bytes4 fin.h6 ++ bytes4 fin.h7

/-- Modelled from the spec: HMAC-SHA256 ("compute HMAC-SHA256(secret,
raw_body)"), with the standard 64-byte block key schedule. -/
def hmacSha256 (key msg : List Nat) : List Nat :=
  let k0 := if key.length > 64 then sha256 key else key
  let kpad := k0 ++ List.replicate (64 - k0.length) 0
  let ipad := kpad.map fun b => Nat.xor b 0x36
  let opad := kpad.map fun b => Nat.xor b 0x5c
  sha256 (opad ++ sha256 (ipad ++ msg))

/-- Lowercase hex digit. -/
def hexDigit (n : Nat) : Char :=
  if n < 10 then Char.ofNat (48 + n)
  else if n < 16 then Char.ofNat (87 + n)
  else Char.ofNat 102

/-- Lowercase hex characters of a byte list. -/
def hexChars : List Nat → List Char
  | [] => []
  | b :: rest => hexDigit (b / 16) :: hexDigit (b % 16) :: hexChars rest

/-- `hmac.update(m).digest(hex)`: the keyed digest as a lowercase hex
string. -/
def hmacSha256Hex (key msg : List Nat) : String :=
  String.mk (hexChars (hmacSha256 key msg))

/-- Value of a hex character, if it is one. -/
def hexDigitVal (c : Char) : Option Nat :=
  if 48 ≤ c.toNat ∧ c.toNat ≤ 57 then some (c.toNat - 48)
  else if 97 ≤ c.toNat ∧ c.toNat ≤ 102 then some (c.toNat - 87)
  else if 65 ≤ c.toNat ∧ c.toNat ≤ 70 then some (c.toNat - 55)
  else none

/-- Node `Buffer.from(s, hex)`: decode hex pairs, stopping (truncating)
at the first invalid pair or lone trailing digit. -/
def hexDecodeChars : List Char → List Nat
  | [] => []
  | [_] => []
  | a :: b :: rest =>
    match hexDigitVal a, hexDigitVal b with
    | some x, some y => (16 * x + y) :: hexDecodeChars rest
    | _, _ => []

/-- Hex decoding of a string, with the Node truncating semantics. -/
def hexDecode (s : String) : List Nat :=
  hexDecodeChars s.data

/-- Node `crypto.timingSafeEqual`: throws when the buffers have different
lengths, otherwise compares them (the constant-time execution profile has
no observable counterpart in this model). -/
def timingSafeEqual (a b : List Nat) : Except Unit Bool :=
  if a.length = b.length then .ok (decide (a = b)) else .error ()

/-- A value passed to `set`: either a data value or the
`admin.firestore.FieldValue.serverTimestamp()` sentinel. -/
inductive FieldVal where
  | fv : JVal → FieldVal
  | serverTimestamp : FieldVal

/-- Is the field value JavaScript `undefined`?  Firestore rejects such a
document with an error. -/
def fieldIsUndef : FieldVal → Bool
  | .fv v => isUndefined v
  | .serverTimestamp => false

/-- Resolve a field value at write time: the sentinel becomes the server
time, data values pass through. -/
def resolveField (now : Nat) : FieldVal → JVal
  | .fv v => v
  | .serverTimestamp => .jtime now

/-- One `db.collection(c).doc(id).set(fields, merge)` call, after
validation and sentinel resolution. -/
structure SetCall where
  collection : String
  docId : String
  fields : List (String × JVal)
  merge : Bool

/-- `db.collection(col).doc(docId).set(fields, merge true)`: `doc` throws
unless the id is a nonempty string, `set` throws if any field value is
`undefined`; otherwise the call is recorded with the timestamp sentinel
resolved to the server time. -/
def docSet (now : Nat) (col : String) (docId : JVal)
    (fields : List (String × FieldVal)) : Except Unit SetCall :=
  match docId with
  | .jstr s =>
    if s = "" then .error ()
    else if fields.any (fun p => fieldIsUndef p.2) then .error ()
    else .ok ⟨col, s, fields.map (fun p => (p.1, resolveField now p.2)), true⟩
  | _ => .error ()

/-- A stored document: field name to value. -/
def Doc : Type := String → Option JVal

/-- The record store: (collection, document id) to document. -/
def Store : Type := String × String → Option Doc

/-- The empty document a merge-upsert starts from when the key is absent. -/
def emptyDoc : Doc := fun _ => none

/-- Merge-upsert one document: mentioned fields are overwritten, all
others keep their prior value. -/
def mergeDoc (d : Doc) (fs : List (String × JVal)) : Doc :=
  fun k =>
    match propLookup k fs with
    | .jundefined => d k
    | v => some v

/-- Apply one merge `set` call to the store. -/
def applySet (s : Store) (w : SetCall) : Store :=
  fun key =>
    if key = (w.collection, w.docId) then
      some (mergeDoc ((s key).getD emptyDoc) w.fields)
    else s key

/-- Apply the (at most one) write of a handler to the store. -/
def applyWrite (s : Store) : Option SetCall → Store
  | none => s
  | some w => applySet s w

/-- Read one field of one document. -/
def readField (s : Store) (col docId k : String) : Option JVal :=
  match s (col, docId) with
  | some d => d k
  | none => none

/-- The inbound HTTP request: method, `x-signature` header, and the
transported body byte chunks. -/
structure Request where
  method : String
  xSignature : Option String
  chunks : List (List Nat)

/-- A JSON response body: `(received true)` or `(error msg)`. -/
inductive RespBody where
  | received : RespBody
  | errMsg : String → RespBody
deriving DecidableEq

/-- An HTTP response: status code and JSON body. -/
structure Response where
  status : Nat
  body : RespBody
deriving DecidableEq

/-- `event.meta?.event_name` (lines 59 of part_000, 67 and 185 of
webhook.js). -/
def metaEventName (event : JVal) : Except Unit JVal :=
  match getProp event "meta" with
  | .error e => .error e
  | .ok m => getChain m "event_name"

/-- `event.data?.attributes` (lines 60 of part_000, 68 and 186 of
webhook.js). -/
def dataAttributes (event : JVal) : Except Unit JVal :=
  match getProp event "data" with
  | .error e => .error e
  | .ok d => getChain d "attributes"

/-- `event.data?.id` (lines 69 and 95 of part_000). -/
def dataId (event : JVal) : Except Unit JVal :=
  match getProp event "data" with
  | .error e => .error e
  | .ok d => getChain d "id"

/-- `attributes.first_order_item?.product_name` (line 68 of part_000). -/
def foiProductName (attributes : JVal) : Except Unit JVal :=
  match getProp attributes "first_order_item" with
  | .error e => .error e
  | .ok f => getChain f "product_name"

/-- Lines 75-78 of part_000: subscriptionType defaults to lifetime and
becomes yearly when the lowercased product name contains "yearly". -/
def subscriptionTypeFromName (pnLower : String) : String :=
  if strIncludes pnLower "yearly" then "yearly" else "lifetime"

/-- Lines 113-116 of part_000: premium for status active or on_trial,
free otherwise. -/
def subscriptionFromStatus (status : JVal) : String :=
  if strictEqStr status "active" || strictEqStr status "on_trial" then "premium" else "free"

/-- The event-projection block shared verbatim by part_000 (lines 58-129)
and the second webhook.js document (lines 184-259): dispatch on
`event_name` and perform at most one merge-upsert.  `attributes?.status`
is bound up front; the source evaluates it inside the first branch
condition, but the access cannot throw, so the observable behaviour is
identical. -/
def processEvent (now : Nat) (event : JVal) : Except Unit (Option SetCall) :=
  match metaEventName event with
  | .error e => .error e
  | .ok eventName =>
  match dataAttributes event with
  | .error e => .error e
  | .ok attributes =>
  match getChain attributes "status" with
  | .error e => .error e
  | .ok st =>
  if strictEqStr eventName "order_created" && strictEqStr st "paid" then
    match getProp attributes "user_email" with
    | .error e => .error e
    | .ok email =>
    match foiProductName attributes with
    | .error e => .error e
    | .ok pn0 =>
    let productName := jsOr pn0 (JVal.jstr "")
    match dataId event with
    | .error e => .error e
    | .ok orderId =>
    match jsToLowerCase productName with
    | .error e => .error e
    | .ok pnLower =>
    let subscriptionType := subscriptionTypeFromName pnLower
    match docSet now "users" email
        [("email", .fv email),
         ("subscription", .fv (.jstr "premium")),
         ("subscriptionType", .fv (.jstr subscriptionType)),
         ("purchaseDate", .serverTimestamp),
         ("lemonSqueezyOrderId", .fv orderId),
         ("productName", .fv productName)] with
    | .error e => .error e
    | .ok w => .ok (some w)
  else if strictEqStr eventName "subscription_created" then
    match getProp attributes "user_email" with
    | .error e => .error e
    | .ok email =>
    match dataId event with
    | .error e => .error e
    | .ok subscriptionId =>
    match docSet now "users" email
        [("email", .fv email),
         ("subscription", .fv (.jstr "premium")),
         ("subscriptionType", .fv (.jstr "yearly")),
         ("subscriptionStartDate", .serverTimestamp),
         ("lemonSqueezySubscriptionId", .fv subscriptionId)] with
    | .error e => .error e
    | .ok w => .ok (some w)
  else if strictEqStr eventName "subscription_updated" then
    match getProp attributes "user_email" with
    | .error e => .error e
    | .ok email =>
    match getProp attributes "status" with
    | .error e => .error e
    | .ok status =>
    let subscriptionStatus := subscriptionFromStatus status
    match docSet now "users" email
        [("email", .fv email),
         ("subscription", .fv (.jstr subscriptionStatus)),
         ("subscriptionStatus", .fv status),
         ("lastUpdated", .serverTimestamp)] with
    | .error e => .error e
    | .ok w => .ok (some w)
  else
    .ok none

/-- part_000 lines 23-30: `verifySignature(payload, signature, secret)` —
compute the hex digest and compare with `crypto.timingSafeEqual` over the
UTF-8 buffers of the two strings.  There is no guard and no try/catch: a
length mismatch propagates as a thrown error. -/
def PartZero.verifySignature (payload signature secret : String) : Except Unit Bool :=
  let digest := hmacSha256Hex (strBytes secret) (strBytes payload)
  timingSafeEqual (strBytes signature) (strBytes digest)

/-- part_000 lines 38-132, the body of the top-level `try`: reject a falsy
signature or secret with 401, verify over `JSON.stringify(req.body)`,
then run the event projection. -/
def PartZero.handlerTry (secret : Option String) (req : Request) (body : JVal)
    (now : Nat) : Except Unit (Response × Option SetCall) :=
  if falsyOpt req.xSignature || falsyOpt secret then
    .ok (⟨401, .errMsg "Unauthorized"⟩, none)
  else
    let signature := req.xSignature.getD ""
    let secretS := secret.getD ""
    let rawBody := jsonStringify body
    match PartZero.verifySignature rawBody signature secretS with
    | .error e => .error e
    | .ok isValid =>
      if isValid then
        match processEvent now body with
        | .error e => .error e
        | .ok w => .ok (⟨200, .received⟩, w)
      else .ok (⟨401, .errMsg "Invalid signature"⟩, none)

/-- part_000 lines 32-138: the exported handler — 405 for non-POST, the
try body, and the top-level catch that converts any thrown error into a
500 with no store write (every throw happens before the single `set`). -/
def PartZero.handler (secret : Option String) (req : Request) (body : JVal)
    (now : Nat) : Response × Option SetCall :=
  if req.method ≠ "POST" then (⟨405, .errMsg "Method not allowed"⟩, none)
  else
    match PartZero.handlerTry secret req body now with
    | .ok r => r
    | .error _ => (⟨500, .errMsg "Internal server error"⟩, none)

/-- webhook.js lines 125-143: `verifySignature` with a falsy guard and a
try/catch that converts the `timingSafeEqual` length error into `false`. -/
def WebhookB.verifySignature (rawBody signature secret : String) : Bool :=
  if decide (signature = "") || decide (secret = "") then false
  else
    match timingSafeEqual (strBytes signature)
        (strBytes (hmacSha256Hex (strBytes secret) (strBytes rawBody))) with
    | .ok b => b
    | .error _ => false

/-- webhook.js lines 151-262, the body of the top-level `try`: a falsy
secret is a 500, a present signature is verified (401 on mismatch), a
missing signature is allowed through ("for initial testing"), then the
event projection runs. -/
def WebhookB.handlerTry (secret : Option String) (req : Request) (body : JVal)
    (now : Nat) : Except Unit (Response × Option SetCall) :=
  if falsyOpt secret then
    .ok (⟨500, .errMsg "Webhook secret not configured"⟩, none)
  else
    let rawBody := jsonStringify body
    if falsyOpt req.xSignature then
      match processEvent now body with
      | .error e => .error e
      | .ok w => .ok (⟨200, .received⟩, w)
    else
      if WebhookB.verifySignature rawBody (req.xSignature.getD "") (secret.getD "") then
        match processEvent now body with
        | .error e => .error e
        | .ok w => .ok (⟨200, .received⟩, w)
      else .ok (⟨401, .errMsg "Invalid signature"⟩, none)

/-- webhook.js lines 145-268: the exported handler of the second document
(405 for non-POST, top-level catch to 500; the `details` field of the 500
body is not modelled). -/
def WebhookB.handler (secret : Option String) (req : Request) (body : JVal)
    (now : Nat) : Response × Option SetCall :=
  if req.method ≠ "POST" then (⟨405, .errMsg "Method not allowed"⟩, none)
  else
    match WebhookB.handlerTry secret req body now with
    | .ok r => r
    | .error _ => (⟨500, .errMsg "Internal server error"⟩, none)

/-- webhook.js lines 13-19: `getRawBody` concatenates the transported
chunks, reproducing the body bytes exactly as transmitted. -/
def WebhookA.getRawBody (req : Request) : List Nat :=
  req.chunks.foldl (fun acc c => acc ++ c) []

/-- webhook.js lines 65-98: parse the raw buffer and handle
`order_created` with status paid (the only event this first document
projects); everything else is acknowledged with 200. -/
def WebhookA.processRest (now : Nat) (rawBody : List Nat) :
    Except Unit (Response × Option SetCall) :=
  match jsonParse (bytesToStr rawBody) with
  | .error e => .error e
  | .ok event =>
  match metaEventName event with
  | .error e => .error e
  | .ok eventName =>
  match dataAttributes event with
  | .error e => .error e
  | .ok attributes =>
  match getChain attributes "status" with
  | .error e => .error e
  | .ok st =>
  if strictEqStr eventName "order_created" && strictEqStr st "paid" then
    match getProp attributes "user_email" with
    | .error e => .error e
    | .ok email =>
    match foiProductName attributes with
    | .error e => .error e
    | .ok pn0 =>
    let productName := jsOr pn0 (JVal.jstr "")
    match dataId event with
    | .error e => .error e
    | .ok orderId =>
    match jsToLowerCase productName with
    | .error e => .error e
    | .ok pnLower =>
    let subscriptionType := subscriptionTypeFromName pnLower
    match docSet now "users" email
        [("email", .fv email),
         ("subscription", .fv (.jstr "premium")),
         ("subscriptionType", .fv (.jstr subscriptionType)),
         ("purchaseDate", .serverTimestamp),
         ("lemonSqueezyOrderId", .fv orderId),
         ("productName", .fv productName)] with
    | .error e => .error e
    | .ok w => .ok (⟨200, .received⟩, some w)
  else .ok (⟨200, .received⟩, none)

/-- webhook.js lines 40-99, the body of the top-level `try` of the first
document: capture the raw body, and only `if (secret && signature)` run
the verification — `Buffer.from(x, hex)` decoding both sides, with the
`timingSafeEqual` length error escaping to the catch.  When either is
falsy, verification is skipped entirely. -/
def WebhookA.handlerTry (secret : Option String) (req : Request) (now : Nat) :
    Except Unit (Response × Option SetCall) :=
  let rawBody := WebhookA.getRawBody req
  if !(falsyOpt secret) && !(falsyOpt req.xSignature) then
    let digest := hmacSha256Hex (strBytes (secret.getD "")) rawBody
    match timingSafeEqual (hexDecode (req.xSignature.getD "")) (hexDecode digest) with
    | .error e => .error e
    | .ok isValid =>
      if isValid then WebhookA.processRest now rawBody
      else .ok (⟨401, .errMsg "Invalid signature"⟩, none)
  else WebhookA.processRest now rawBody

/-- webhook.js lines 35-104: the exported handler of the first document. -/
def WebhookA.handler (secret : Option String) (req : Request) (now : Nat) :
    Response × Option SetCall :=
  if req.method ≠ "POST" then (⟨405, .errMsg "Method not allowed"⟩, none)
  else
    match WebhookA.handlerTry secret req now with
    | .ok r => r
    | .error _ => (⟨500, .errMsg "Internal server error"⟩, none)

/-- The byte sequence part_000 feeds to HMAC-SHA256 for a host-parsed
body: the UTF-8 bytes of `JSON.stringify(req.body)` (line 49). -/
def PartZero.hmacMessage (body : JVal) : List Nat :=
  strBytes (jsonStringify body)

/-- The byte sequence the second webhook.js document feeds to HMAC-SHA256:
also the bytes of `JSON.stringify(req.body)` (line 165). -/
def WebhookB.hmacMessage (body : JVal) : List Nat :=
  strBytes (jsonStringify body)

/-- The byte sequence the first webhook.js document feeds to HMAC-SHA256:
the raw captured body (line 50). -/
def WebhookA.hmacMessage (req : Request) : List Nat :=
  WebhookA.getRawBody req

/-- Run a handler result against the store. -/
def runWrite (s : Store) (r : Response × Option SetCall) : Store :=
  applyWrite s r.2

/-- Process one request with the part_000 handler and apply its write. -/
def PartZero.run (s : Store) (secret : Option String) (req : Request)
    (body : JVal) (now : Nat) : Store :=
  runWrite s (PartZero.handler secret req body now)

theorem hexChars_length (bs : List Nat) : (hexChars bs).length = 2 * bs.length := by
  induction bs with
  | nil => simp [hexChars]
  | cons b rest ih => simp [hexChars, ih]; ring

theorem sha256_length (msg : List Nat) : (sha256 msg).length = 32 := by
  simp [sha256, bytes4]

theorem hmacSha256Hex_length (key msg : List Nat) :
    (hmacSha256Hex key msg).length = 64 := by
  have h : (hmacSha256 key msg).length = 32 := by
    simp [hmacSha256, sha256_length]
  simp [hmacSha256Hex, String.length, hexChars_length, h]

theorem hmacSha256Hex_ne_empty (key msg : List Nat) : hmacSha256Hex key msg ≠ "" := by
  intro h
  have := congrArg String.length h
  rw [hmacSha256Hex_length] at this
  simp [String.length] at this

theorem strBytes_length (s : String) : (strBytes s).length = s.length := by
  rw [strBytes, List.length_map]
  rfl

theorem verifySignature_self (payload secret : String) :
    PartZero.verifySignature payload
      (hmacSha256Hex (strBytes secret) (strBytes payload)) secret = .ok true := by
  show timingSafeEqual (strBytes (hmacSha256Hex (strBytes secret) (strBytes payload)))
      (strBytes (hmacSha256Hex (strBytes secret) (strBytes payload))) = .ok true
  simp [timingSafeEqual]

theorem verifySignature_short (payload signature secret : String)
    (h : signature.length ≠ 64) :
    PartZero.verifySignature payload signature secret = .error () := by
  simp only [PartZero.verifySignature, timingSafeEqual]
  rw [if_neg]
  rw [strBytes_length, strBytes_length, hmacSha256Hex_length]
  exact h

theorem getProp_nullish (v : JVal) (k : String) (h : isNullish v = true) :
    getProp v k = .error () := by
  cases v <;> simp_all [isNullish, getProp]

theorem getChain_nullish (v : JVal) (k : String) (h : isNullish v = true) :
    getChain v k = .ok .jundefined := by
  simp [getChain, h]

theorem pz_handler_verified (secret : Option String) (req : Request) (body : JVal)
    (now : Nat) (sg sec : String)
    (hm : req.method = "POST") (hs : req.xSignature = some sg) (hsg : sg ≠ "")
    (h0 : secret = some sec) (hc : sec ≠ "")
    (hv : PartZero.verifySignature (jsonStringify body) sg sec = .ok true) :
    PartZero.handler secret req body now =
      match processEvent now body with
      | .ok w => (⟨200, .received⟩, w)
      | .error _ => (⟨500, .errMsg "Internal server error"⟩, none) := by
  rw [PartZero.handler, if_neg (by simp [hm])]
  rw [PartZero.handlerTry, hs, h0]
  simp only [falsyOpt, Option.getD_some]
  rw [if_neg (by simp [hsg, hc])]
  rw [hv]
  cases hpe : processEvent now body <;> simp [hpe]

theorem isNullish_false_of_getProp_ok (v : JVal) (k : String) (x : JVal)
    (h : getProp v k = .ok x) : isNullish v = false := by
  cases v <;> simp_all [getProp, isNullish]

theorem processEvent_order (now : Nat) (body attrs pv oid : JVal) (em pn : String)
    (hev : metaEventName body = .ok (.jstr "order_created"))
    (hat : dataAttributes body = .ok attrs)
    (hst : getChain attrs "status" = .ok (.jstr "paid"))
    (hem : getProp attrs "user_email" = .ok (.jstr em)) (hemne : em ≠ "")
    (hp0 : foiProductName attrs = .ok pv)
    (hpn : jsOr pv (JVal.jstr "") = .jstr pn)
    (hoid : dataId body = .ok oid) (hou : isUndefined oid = false) :
    processEvent now body =
      .ok (some ⟨"users", em,
        [("email", .jstr em),
         ("subscription", .jstr "premium"),
         ("subscriptionType", .jstr (subscriptionTypeFromName (strLower pn))),
         ("purchaseDate", .jtime now),
         ("lemonSqueezyOrderId", oid),
         ("productName", .jstr pn)], true⟩) := by
  cases oid <;>
    simp_all [processEvent, hev, hat, hst, hem, hp0, hpn, strictEqStr,
      jsToLowerCase, docSet, hemne, fieldIsUndef, isUndefined, resolveField]

theorem processEvent_subUpdated (now : Nat) (body attrs : JVal) (em st : String)
    (hev : metaEventName body = .ok (.jstr "subscription_updated"))
    (hat : dataAttributes body = .ok attrs)
    (hem : getProp attrs "user_email" = .ok (.jstr em)) (hemne : em ≠ "")
    (hst : getProp attrs "status" = .ok (.jstr st)) :
    processEvent now body =
      .ok (some ⟨"users", em,
        [("email", .jstr em),
         ("subscription", .jstr (subscriptionFromStatus (.jstr st))),
         ("subscriptionStatus", .jstr st),
         ("lastUpdated", .jtime now)], true⟩) := by
  have hnn := isNullish_false_of_getProp_ok attrs "user_email" (.jstr em) hem
  have hch : getChain attrs "status" = .ok (.jstr st) := by
    rw [getChain, if_neg (by simp [hnn]), hst]
  simp [processEvent, hev, hat, hch, hem, hst, strictEqStr, docSet, hemne,
    fieldIsUndef, isUndefined, resolveField]

theorem mergeDoc_idem (d : Doc) (fs : List (String × JVal)) :
    mergeDoc (mergeDoc d fs) fs = mergeDoc d fs := by
  funext k
  rw [mergeDoc, mergeDoc]
  cases propLookup k fs <;> simp

theorem applySet_idem (s : Store) (w : SetCall) :
    applySet (applySet s w) w = applySet s w := by
  funext key
  by_cases h : key = (w.collection, w.docId)
  · simp only [applySet, if_pos h, Option.getD_some, mergeDoc_idem]
  · simp only [applySet, if_neg h]

theorem applyWrite_idem (s : Store) (o : Option SetCall) :
    applyWrite (applyWrite s o) o = applyWrite s o := by
  cases o with
  | none => rfl
  | some w => exact applySet_idem s w

theorem pzRun_idem (s : Store) (secret : Option String) (req : Request)
    (body : JVal) (now : Nat) :
    PartZero.run (PartZero.run s secret req body now) secret req body now =
      PartZero.run s secret req body now := by
  simp only [PartZero.run, runWrite]
  exact applyWrite_idem s (PartZero.handler secret req body now).2

/-- A transmitted `order_created` body with paid status, exactly as a
provider would send it, including inter-token whitespace. -/
def orderRawEx : String :=
  "\x7b\"meta\": \x7b\"event_name\": \"order_created\"\x7d, \"data\": \x7b\"id\": \"o1\", \"attributes\": \x7b\"user_email\": \"a@b.c\", \"status\": \"paid\", \"first_order_item\": \x7b\"product_name\": \"Basic Plan\"\x7d\x7d\x7d\x7d"

/-- The host-parsed form of `orderRawEx`. -/
def orderBodyEx : JVal :=
  match jsonParse orderRawEx with
  | .ok v => v
  | .error _ => .jnull

/-- The write the `order_created` branch performs for `orderRawEx` at
server time 0. -/
def wOrderEx : SetCall :=
  ⟨"users", "a@b.c",
    [("email", .jstr "a@b.c"),
     ("subscription", .jstr "premium"),
     ("subscriptionType", .jstr "lifetime"),
     ("purchaseDate", .jtime 0),
     ("lemonSqueezyOrderId", .jstr "o1"),
     ("productName", .jstr "Basic Plan")], true⟩

/-- C1: the claim says that with a secret configured, a POST whose
x-signature header is missing is rejected with no store write.  The code
does the opposite in two of the three variants: the first webhook.js
document only verifies `if (secret && signature)` and the second
explicitly allows signatureless requests through, so both process the
event and upsert the user record, responding 200; only part_000 rejects
with 401 and no write. -/
theorem c1_missing_signature_processed :
    WebhookA.handler (some "whsec") ⟨"POST", none, [strBytes orderRawEx]⟩ 0 =
      (⟨200, .received⟩, some wOrderEx)
    ∧ WebhookB.handler (some "whsec") ⟨"POST", none, []⟩ orderBodyEx 0 =
      (⟨200, .received⟩, some wOrderEx)
    ∧ PartZero.handler (some "whsec") ⟨"POST", none, []⟩ orderBodyEx 0 =
      (⟨401, .errMsg "Unauthorized"⟩, none) :=
  ⟨rfl, rfl, rfl⟩

/-- C2: the claim says the bytes fed to HMAC-SHA256 are exactly the
transmitted body bytes.  For the transmitted body `orderRawEx` (which
contains whitespace between tokens), part_000 and the second webhook.js
document instead feed the bytes of `JSON.stringify(req.body)` — a
parse-then-reserialize round trip whose output differs from the
transmitted bytes; only the first webhook.js document feeds the captured
raw bytes. -/
theorem c2_hmac_input_not_raw_bytes :
    jsonParse orderRawEx = .ok orderBodyEx
    ∧ PartZero.hmacMessage orderBodyEx ≠ strBytes orderRawEx
    ∧ WebhookB.hmacMessage orderBodyEx ≠ strBytes orderRawEx
    ∧ WebhookA.hmacMessage ⟨"POST", some "sig", [strBytes orderRawEx]⟩ = strBytes orderRawEx :=
  ⟨rfl, by decide, by decide, rfl⟩

/-- C3: the claim says that with the webhook secret unset every request
is rejected with a 500 configuration error and verification is never
silently skipped.  The second webhook.js document does exactly that, but
part_000 rejects with 401 (Unauthorized) instead of 500, and the first
webhook.js document silently skips verification and fully processes the
event — upserting the record and responding 200. -/
theorem c3_missing_secret_divergence :
    WebhookA.handler none ⟨"POST", some "deadbeef", [strBytes orderRawEx]⟩ 0 =
      (⟨200, .received⟩, some wOrderEx)
    ∧ WebhookB.handler none ⟨"POST", some "deadbeef", []⟩ orderBodyEx 0 =
      (⟨500, .errMsg "Webhook secret not configured"⟩, none)
    ∧ PartZero.handler none ⟨"POST", some "deadbeef", []⟩ orderBodyEx 0 =
      (⟨401, .errMsg "Unauthorized"⟩, none) :=
  ⟨rfl, rfl, rfl⟩

/-- C8: the claim says a supplied signature whose length differs from the
computed hex digest is rejected as an authentication failure (401) after
an equal-length check.  In part_000 the `timingSafeEqual` length error
escapes `verifySignature` (which has no guard and no try/catch) to the
top-level catch, producing a 500; the first webhook.js document likewise
500s (its hex-decoded buffers differ in length inside the handler try
block); only the second webhook.js document catches the error inside
`verifySignature` and returns 401. -/
theorem c8_length_mismatch_is_500 :
    PartZero.handler (some "whsec") ⟨"POST", some "abc", []⟩ orderBodyEx 0 =
      (⟨500, .errMsg "Internal server error"⟩, none)
    ∧ WebhookA.handler (some "whsec") ⟨"POST", some "abc", [strBytes orderRawEx]⟩ 0 =
      (⟨500, .errMsg "Internal server error"⟩, none)
    ∧ WebhookB.handler (some "whsec") ⟨"POST", some "abc", []⟩ orderBodyEx 0 =
      (⟨401, .errMsg "Invalid signature"⟩, none) :=
  ⟨rfl, rfl, rfl⟩

/-- C5: for every verified `order_created` event with paid status, the
handler derives subscriptionType yearly exactly when the lowercased
product name contains "yearly" (lifetime otherwise) and performs one
merge-upsert keyed by user_email setting email, subscription premium,
subscriptionType, purchaseDate, the order id and the product name. -/
theorem c5_order_created_paid_upsert (secret : Option String) (req : Request)
    (body attrs pv oid : JVal) (em pn : String) (now : Nat) (sg sec : String)
    (hm : req.method = "POST") (hs : req.xSignature = some sg) (hsg : sg ≠ "")
    (h0 : secret = some sec) (hc : sec ≠ "")
    (hv : PartZero.verifySignature (jsonStringify body) sg sec = .ok true)
    (hev : metaEventName body = .ok (.jstr "order_created"))
    (hat : dataAttributes body = .ok attrs)
    (hst : getChain attrs "status" = .ok (.jstr "paid"))
    (hem : getProp attrs "user_email" = .ok (.jstr em)) (hemne : em ≠ "")
    (hp0 : foiProductName attrs = .ok pv)
    (hpn : jsOr pv (JVal.jstr "") = .jstr pn)
    (hoid : dataId body = .ok oid) (hou : isUndefined oid = false) :
    PartZero.handler secret req body now =
      (⟨200, .received⟩, some ⟨"users", em,
        [("email", .jstr em),
         ("subscription", .jstr "premium"),
         ("subscriptionType", .jstr (subscriptionTypeFromName (strLower pn))),
         ("purchaseDate", .jtime now),
         ("lemonSqueezyOrderId", oid),
         ("productName", .jstr pn)], true⟩)
    ∧ (subscriptionTypeFromName (strLower pn) = "yearly" ↔
        strIncludes (strLower pn) "yearly" = true)
    ∧ (strIncludes (strLower pn) "yearly" = false →
        subscriptionTypeFromName (strLower pn) = "lifetime") := by
  refine ⟨?_, ?_, ?_⟩
  · rw [pz_handler_verified secret req body now sg sec hm hs hsg h0 hc hv]
    rw [processEvent_order now body attrs pv oid em pn hev hat hst hem hemne hp0 hpn hoid hou]
  · cases hb : strIncludes (strLower pn) "yearly" <;> simp [subscriptionTypeFromName, hb]
  · intro hb
    simp [subscriptionTypeFromName, hb]

/-- The attributes object of the concrete yearly order. -/
def orderYearlyAttrs : JVal :=
  .jobj [("user_email", .jstr "u@x.io"),
         ("status", .jstr "paid"),
         ("first_order_item", .jobj [("product_name", .jstr "Pro Yearly Plan")])]

/-- A concrete paid `order_created` event for the product
"Pro Yearly Plan". -/
def orderYearlyBody : JVal :=
  .jobj [("meta", .jobj [("event_name", .jstr "order_created")]),
         ("data", .jobj [("id", .jstr "ord-1"), ("attributes", orderYearlyAttrs)])]

/-- The correct hex signature for `orderYearlyBody` as part_000 verifies
it, under the secret "whsec". -/
def sigOrderYearly : String :=
  hmacSha256Hex (strBytes "whsec") (strBytes (jsonStringify orderYearlyBody))

/-- A correctly signed POST request carrying `orderYearlyBody`. -/
def reqOrderYearly : Request := ⟨"POST", some sigOrderYearly, []⟩

/-- C5 witness: the yearly order is upserted with subscriptionType
yearly, as the spec example requires. -/
theorem c5_order_created_paid_upsert_witness :
    PartZero.handler (some "whsec") reqOrderYearly orderYearlyBody 3 =
      (⟨200, .received⟩, some ⟨"users", "u@x.io",
        [("email", .jstr "u@x.io"),
         ("subscription", .jstr "premium"),
         ("subscriptionType", .jstr "yearly"),
         ("purchaseDate", .jtime 3),
         ("lemonSqueezyOrderId", .jstr "ord-1"),
         ("productName", .jstr "Pro Yearly Plan")], true⟩) :=
  (c5_order_created_paid_upsert (some "whsec") reqOrderYearly orderYearlyBody
    orderYearlyAttrs (.jstr "Pro Yearly Plan") (.jstr "ord-1") "u@x.io"
    "Pro Yearly Plan" 3 sigOrderYearly "whsec"
    rfl rfl (hmacSha256Hex_ne_empty _ _) rfl (by decide)
    (verifySignature_self (jsonStringify orderYearlyBody) "whsec")
    rfl rfl rfl rfl (by decide) rfl rfl rfl rfl).1

/-- C6: for every verified `subscription_updated` event, the handler
writes subscription premium exactly when the status is active or
on_trial and free for every other status string, with the same
merge-upsert setting subscriptionStatus to the raw status and
lastUpdated to the server time. -/
theorem c6_subscription_updated_mapping (secret : Option String) (req : Request)
    (body attrs : JVal) (em st : String) (now : Nat) (sg sec : String)
    (hm : req.method = "POST") (hs : req.xSignature = some sg) (hsg : sg ≠ "")
    (h0 : secret = some sec) (hc : sec ≠ "")
    (hv : PartZero.verifySignature (jsonStringify body) sg sec = .ok true)
    (hev : metaEventName body = .ok (.jstr "subscription_updated"))
    (hat : dataAttributes body = .ok attrs)
    (hem : getProp attrs "user_email" = .ok (.jstr em)) (hemne : em ≠ "")
    (hst : getProp attrs "status" = .ok (.jstr st)) :
    PartZero.handler secret req body now =
      (⟨200, .received⟩, some ⟨"users", em,
        [("email", .jstr em),
         ("subscription", .jstr (subscriptionFromStatus (.jstr st))),
         ("subscriptionStatus", .jstr st),
         ("lastUpdated", .jtime now)], true⟩)
    ∧ (subscriptionFromStatus (.jstr st) = "premium" ↔ (st = "active" ∨ st = "on_trial"))
    ∧ (¬ (st = "active" ∨ st = "on_trial") → subscriptionFromStatus (.jstr st) = "free") := by
  refine ⟨?_, ?_, ?_⟩
  · rw [pz_handler_verified secret req body now sg sec hm hs hsg h0 hc hv]
    rw [processEvent_subUpdated now body attrs em st hev hat hem hemne hst]
  · by_cases h : st = "active" ∨ st = "on_trial"
    · rcases h with h | h <;> simp [subscriptionFromStatus, strictEqStr, h]
    · have h1 : st ≠ "active" := fun e => h (Or.inl e)
      have h2 : st ≠ "on_trial" := fun e => h (Or.inr e)
      simp [subscriptionFromStatus, strictEqStr, h1, h2, h]
  · intro h
    have h1 : st ≠ "active" := fun e => h (Or.inl e)
    have h2 : st ≠ "on_trial" := fun e => h (Or.inr e)
    simp [subscriptionFromStatus, strictEqStr, h1, h2]

/-- The attributes object of the concrete on_trial status update. -/
def subUpdAttrs : JVal :=
  .jobj [("user_email", .jstr "u@x.io"), ("status", .jstr "on_trial")]

/-- A concrete `subscription_updated` event with status on_trial. -/
def subUpdBody : JVal :=
  .jobj [("meta", .jobj [("event_name", .jstr "subscription_updated")]),
         ("data", .jobj [("id", .jstr "sub-1"), ("attributes", subUpdAttrs)])]

/-- The correct hex signature for `subUpdBody` under the secret
"whsec". -/
def sigSubUpd : String :=
  hmacSha256Hex (strBytes "whsec") (strBytes (jsonStringify subUpdBody))

/-- A correctly signed POST request carrying `subUpdBody`. -/
def reqSubUpd : Request := ⟨"POST", some sigSubUpd, []⟩

/-- C6 witness: an on_trial status update writes subscription premium,
as the spec example requires. -/
theorem c6_subscription_updated_mapping_witness :
    PartZero.handler (some "whsec") reqSubUpd subUpdBody 5 =
      (⟨200, .received⟩, some ⟨"users", "u@x.io",
        [("email", .jstr "u@x.io"),
         ("subscription", .jstr "premium"),
         ("subscriptionStatus", .jstr "on_trial"),
         ("lastUpdated", .jtime 5)], true⟩) :=
  (c6_subscription_updated_mapping (some "whsec") reqSubUpd subUpdBody
    subUpdAttrs "u@x.io" "on_trial" 5 sigSubUpd "whsec"
    rfl rfl (hmacSha256Hex_ne_empty _ _) rfl (by decide)
    (verifySignature_self (jsonStringify subUpdBody) "whsec")
    rfl rfl rfl (by decide) rfl).1

/-- C7: for every starting store and every `order_created` event,
processing the event twice in succession (same event, same server time)
leaves the store exactly as processing it once — the written fields are
functions of the event alone and the merge-upsert accumulates nothing. -/
theorem c7_order_created_idempotent (s : Store) (secret : Option String)
    (req : Request) (body : JVal) (now : Nat)
    (_hev : metaEventName body = .ok (.jstr "order_created")) :
    PartZero.run (PartZero.run s secret req body now) secret req body now =
      PartZero.run s secret req body now :=
  pzRun_idem s secret req body now

/-- The store with no documents. -/
def emptyStore : Store := fun _ => none

/-- C7 witness: delivering the concrete signed yearly order twice to the
empty store equals delivering it once. -/
theorem c7_order_created_idempotent_witness :
    PartZero.run (PartZero.run emptyStore (some "whsec") reqOrderYearly orderYearlyBody 3)
        (some "whsec") reqOrderYearly orderYearlyBody 3 =
      PartZero.run emptyStore (some "whsec") reqOrderYearly orderYearlyBody 3 :=
  c7_order_created_idempotent emptyStore (some "whsec") reqOrderYearly orderYearlyBody 3 rfl

/-- C9: for every verified `subscription_updated` event and every prior
store, the merge-upsert changes only email, subscription,
subscriptionStatus and lastUpdated on the addressed record — every other
field of that record, and every other document, is left unchanged. -/
theorem c9_subscription_updated_frame (store : Store) (secret : Option String)
    (req : Request) (body attrs : JVal) (em st : String) (now : Nat) (sg sec : String)
    (hm : req.method = "POST") (hs : req.xSignature = some sg) (hsg : sg ≠ "")
    (h0 : secret = some sec) (hc : sec ≠ "")
    (hv : PartZero.verifySignature (jsonStringify body) sg sec = .ok true)
    (hev : metaEventName body = .ok (.jstr "subscription_updated"))
    (hat : dataAttributes body = .ok attrs)
    (hem : getProp attrs "user_email" = .ok (.jstr em)) (hemne : em ≠ "")
    (hst : getProp attrs "status" = .ok (.jstr st)) :
    (∀ k, k ∉ ["email", "subscription", "subscriptionStatus", "lastUpdated"] →
        readField (PartZero.run store secret req body now) "users" em k =
          readField store "users" em k)
    ∧ (∀ col id2 k, ¬ (col = "users" ∧ id2 = em) →
        readField (PartZero.run store secret req body now) col id2 k =
          readField store col id2 k) := by
  have hr : PartZero.run store secret req body now =
      applySet store ⟨"users", em,
        [("email", .jstr em),
         ("subscription", .jstr (subscriptionFromStatus (.jstr st))),
         ("subscriptionStatus", .jstr st),
         ("lastUpdated", .jtime now)], true⟩ := by
    rw [PartZero.run,
      pz_handler_verified secret req body now sg sec hm hs hsg h0 hc hv,
      processEvent_subUpdated now body attrs em st hev hat hem hemne hst]
    rfl
  constructor
  · intro k hk
    simp only [List.mem_cons, List.not_mem_nil, or_false, not_or] at hk
    obtain ⟨h1, h2, h3, h4⟩ := hk
    rw [hr, readField, readField]
    simp only [applySet, eq_self_iff_true, if_true]
    cases hsd : store ("users", em) with
    | some d0 => simp [hsd, mergeDoc, propLookup, h1, h2, h3, h4]
    | none => simp [hsd, mergeDoc, propLookup, h1, h2, h3, h4, emptyDoc]
  · intro col id2 k hne
    rw [hr, readField, readField]
    simp only [applySet]
    rw [if_neg]
    intro he
    rw [Prod.ext_iff] at he
    exact hne ⟨he.1, he.2⟩

/-- A prior store holding, under the key of the updated user, a record with a
subscriptionType field that the status update must not touch. -/
def storeWithType : Store :=
  fun key =>
    if key = ("users", "u@x.io") then
      some (fun k => if k = "subscriptionType" then some (.jstr "lifetime") else none)
    else none

/-- C9 witness: after the concrete signed on_trial update, the stored
subscriptionType field is unchanged. -/
theorem c9_subscription_updated_frame_witness :
    readField (PartZero.run storeWithType (some "whsec") reqSubUpd subUpdBody 5)
        "users" "u@x.io" "subscriptionType" =
      readField storeWithType "users" "u@x.io" "subscriptionType" :=
  (c9_subscription_updated_frame storeWithType (some "whsec") reqSubUpd subUpdBody
    subUpdAttrs "u@x.io" "on_trial" 5 sigSubUpd "whsec"
    rfl rfl (hmacSha256Hex_ne_empty _ _) rfl (by decide)
    (verifySignature_self (jsonStringify subUpdBody) "whsec")
    rfl rfl rfl (by decide) rfl).1 "subscriptionType" (by decide)

/-- C10: a verified POST whose `data.attributes` is absent is a 500 with
no store write when the event is subscription_created or
subscription_updated (the unguarded `attributes.user_email` read throws
and the top-level catch answers 500), while an order_created event with
the same absent attributes is acknowledged 200 with no write because its
branch condition uses the guarded `attributes?.status`. -/
theorem c10_missing_attributes_500 (secret : Option String) (req : Request)
    (body a : JVal) (now : Nat) (sg sec : String)
    (hm : req.method = "POST") (hs : req.xSignature = some sg) (hsg : sg ≠ "")
    (h0 : secret = some sec) (hc : sec ≠ "")
    (hv : PartZero.verifySignature (jsonStringify body) sg sec = .ok true)
    (hat : dataAttributes body = .ok a) (hn : isNullish a = true) :
    ((metaEventName body = .ok (.jstr "subscription_created") ∨
        metaEventName body = .ok (.jstr "subscription_updated")) →
      PartZero.handler secret req body now =
        (⟨500, .errMsg "Internal server error"⟩, none))
    ∧ (metaEventName body = .ok (.jstr "order_created") →
      PartZero.handler secret req body now = (⟨200, .received⟩, none)) := by
  have hplumb := pz_handler_verified secret req body now sg sec hm hs hsg h0 hc hv
  constructor
  · intro hev
    have hpe : processEvent now body = .error () := by
      rcases hev with hev | hev <;>
        simp [processEvent, hev, hat, getChain_nullish a "status" hn, strictEqStr,
          getProp_nullish a "user_email" hn]
    rw [hplumb, hpe]
  · intro hev
    have hpe : processEvent now body = .ok none := by
      simp [processEvent, hev, hat, getChain_nullish a "status" hn, strictEqStr]
    rw [hplumb, hpe]

/-- A `subscription_created` event whose data carries no attributes
object. -/
def subCreatedNoAttrs : JVal :=
  .jobj [("meta", .jobj [("event_name", .jstr "subscription_created")]),
         ("data", .jobj [("id", .jstr "s1")])]

/-- The correct hex signature for `subCreatedNoAttrs` under the secret
"whsec". -/
def sigSubCreatedNoAttrs : String :=
  hmacSha256Hex (strBytes "whsec") (strBytes (jsonStringify subCreatedNoAttrs))

/-- An `order_created` event whose data carries no attributes object. -/
def orderNoAttrs : JVal :=
  .jobj [("meta", .jobj [("event_name", .jstr "order_created")]),
         ("data", .jobj [("id", .jstr "o9")])]

/-- The correct hex signature for `orderNoAttrs` under the secret
"whsec". -/
def sigOrderNoAttrs : String :=
  hmacSha256Hex (strBytes "whsec") (strBytes (jsonStringify orderNoAttrs))

/-- C10 witness: the attribute-less subscription_created event is a 500
with no write, and the attribute-less order_created event a 200 with no
write. -/
theorem c10_missing_attributes_500_witness :
    PartZero.handler (some "whsec") ⟨"POST", some sigSubCreatedNoAttrs, []⟩
        subCreatedNoAttrs 0 = (⟨500, .errMsg "Internal server error"⟩, none)
    ∧ PartZero.handler (some "whsec") ⟨"POST", some sigOrderNoAttrs, []⟩
        orderNoAttrs 0 = (⟨200, .received⟩, none) :=
  ⟨(c10_missing_attributes_500 (some "whsec") ⟨"POST", some sigSubCreatedNoAttrs, []⟩
      subCreatedNoAttrs .jundefined 0 sigSubCreatedNoAttrs "whsec"
      rfl rfl (hmacSha256Hex_ne_empty _ _) rfl (by decide)
      (verifySignature_self (jsonStringify subCreatedNoAttrs) "whsec")
      rfl rfl).1 (Or.inl rfl),
   (c10_missing_attributes_500 (some "whsec") ⟨"POST", some sigOrderNoAttrs, []⟩
      orderNoAttrs .jundefined 0 sigOrderNoAttrs "whsec"
      rfl rfl (hmacSha256Hex_ne_empty _ _) rfl (by decide)
      (verifySignature_self (jsonStringify orderNoAttrs) "whsec")
      rfl rfl).2 rfl⟩

theorem verifySignature_reject (payload signature secret : String)
    (hlen : signature.length = 64)
    (hne : strBytes signature ≠ strBytes (hmacSha256Hex (strBytes secret) (strBytes payload))) :
    PartZero.verifySignature payload signature secret = .ok false := by
  rw [PartZero.verifySignature]
  rw [timingSafeEqual, if_pos]
  · simp [hne]
  · rw [strBytes_length, strBytes_length, hmacSha256Hex_length, hlen]
